import Mathlib

/-!
Verification of the adaptive retrieval subsystem of the Web-Scrapper
repository: engine selection (src/scrapers/engine_selector.py), protection
detection (src/protection/detector.py), CAPTCHA polling
(src/protection/captcha_solver.py), rate limiting (src/protection/stealth.py)
and the proxy pool (src/proxy/proxy_pool.py), as a shallow embedding.

Machine floats are modelled as rationals; network calls are modelled by
passing each call's outcome explicitly (an `Except`/record environment);
`random.choice` is modelled by an explicit choice index.
-/

/- ### String helpers

Python's `s.lower()` and `needle in s` are modelled over `List Char` so that
they reduce in the kernel. -/

/-- Character-wise lowercase, modelling Python `str.lower()` (ASCII view). -/
def lower_chars (cs : List Char) : List Char := cs.map Char.toLower

/-- Does the first list occur at the head of the second one? -/
def starts_with : List Char → List Char → Bool
  | [], _ => true
  | _ :: _, [] => false
  | n :: ns, h :: hs => n == h && starts_with ns hs

/-- Substring occurrence, modelling Python `needle in hay` on strings. -/
def contains_sub (needle : List Char) : List Char → Bool
  | [] => starts_with needle []
  | c :: rest => starts_with needle (c :: rest) || contains_sub needle rest

/-- String-level wrapper for `contains_sub`. -/
def str_contains (needle hay : String) : Bool :=
  contains_sub needle.data hay.data

/-- String-level wrapper for `lower_chars`. -/
def to_lower (s : String) : String := ⟨lower_chars s.data⟩

/- ### Engine selector (src/scrapers/engine_selector.py)

The four scraping engines of the repository.  `smart_scrape` only ever calls
the first two; the other two exist as standalone scraper classes. -/

/-- The engines of src/scrapers: httpx_scraper, curl_cffi_scraper,
playwright_scraper/browser_scraper, bright_data_scraper. -/
inductive Engine
  | httpx
  | curl
  | playwright
  | bright_data
deriving DecidableEq

/-- Outcome of one `scrape(url)` call of each engine for the fetch under
consideration: `Except.ok html` for a normal return, `Except.error e` for a
raised exception.  Each engine's outcome is fixed for the duration of one
`smart_scrape` call. -/
structure EngineEnv where
  httpx : Except String String
  curl : Except String String
  playwright : Except String String
  bright_data : Except String String

/-- Block-page indicator list of `_is_blocked` (engine_selector.py lines
85-100). -/
def block_indicators : List String :=
  ["cf-browser-verification",
   "challenge-platform",
   "captcha",
   "access denied",
   "please wait while we verify",
   "checking your browser",
   "just a moment",
   "ddos protection",
   "bot detection"]

/-- Embedding of `_is_blocked(html)`: any indicator occurs in the lowercased
html. -/
def is_blocked (html : String) : Bool :=
  block_indicators.any fun ind => str_contains ind (to_lower html)

/-- Embedding of `smart_scrape(url, force_engine, retry_on_block)`
(engine_selector.py lines 34-82).  Returns the result (returned html or
raised exception message) together with the list of engine attempts made, in
order.  The Python control flow: a forced "httpx"/"curl" returns that
engine's result directly; otherwise httpx is tried first; a blocked httpx
response escalates to curl inside the `try` block, so a curl exception there
is caught by the outer handler, which (with `retry_on_block`) calls curl a
second time before re-raising. -/
def smart_scrape (env : EngineEnv) (force_engine : Option String)
    (retry_on_block : Bool) : Except String String × List Engine :=
  if force_engine = some "httpx" then
    (env.httpx, [Engine.httpx])
  else if force_engine = some "curl" then
    (env.curl, [Engine.curl])
  else
    match env.httpx with
    | Except.ok html =>
      if is_blocked html then
        if retry_on_block then
          -- `return await get_curl_scraper().scrape(url)` inside the try:
          -- a curl exception falls into the outer handler, which retries curl.
          match env.curl with
          | Except.ok h => (Except.ok h, [Engine.httpx, Engine.curl])
          | Except.error ce =>
            match env.curl with
            | Except.ok h => (Except.ok h, [Engine.httpx, Engine.curl, Engine.curl])
            | Except.error _ =>
              (Except.error ce, [Engine.httpx, Engine.curl, Engine.curl])
        else
          -- `raise Exception("Blocked by protection")`, re-raised by the
          -- handler since retry_on_block is false.
          (Except.error "Blocked by protection", [Engine.httpx])
      else
        (Except.ok html, [Engine.httpx])
    | Except.error e =>
      if retry_on_block then
        match env.curl with
        | Except.ok h => (Except.ok h, [Engine.httpx, Engine.curl])
        | Except.error _ => (Except.error e, [Engine.httpx, Engine.curl])
      else
        (Except.error e, [Engine.httpx])

/- ### Protection detector (src/protection/detector.py) -/

/-- The `ProtectionType` enum of detector.py. -/
inductive ProtectionType
  | NONE
  | CLOUDFLARE
  | AKAMAI
  | PERIMETERX
  | DATADOME
  | RECAPTCHA
  | HCAPTCHA
  | UNKNOWN
deriving DecidableEq

/-- The probe response inspected by `detect_protection`: the header dict
(`dict(response.headers)`), the rendering of `str(response.cookies)`, and the
response text. -/
structure ProbeResponse where
  headers : List (String × String)
  cookies_str : String
  html : String

/-- A single-quote character, built numerically. -/
def apos : String := String.singleton (Char.ofNat 39)

/-- Rendering of Python `str(headers)` for a dict of strings:
`\x7b'k1': 'v1', 'k2': 'v2'\x7d`. -/
def dict_str (hs : List (String × String)) : String :=
  "\x7b" ++
    String.intercalate ", "
      (hs.map fun kv => apos ++ kv.1 ++ apos ++ ": " ++ apos ++ kv.2 ++ apos) ++
  "\x7d"

/-- Python `k in headers` (dict key membership). -/
def dict_contains_key (hs : List (String × String)) (k : String) : Bool :=
  (hs.map Prod.fst).contains k

/-- Header/cookie checks of `detect_protection` (detector.py lines 50-61), in
source order, first match wins. -/
def check_headers (r : ProbeResponse) : Option ProtectionType :=
  if dict_contains_key r.headers "cf-ray" ||
     dict_contains_key r.headers "cf-cache-status" then
    some ProtectionType.CLOUDFLARE
  else if str_contains "x-akamai" (to_lower (dict_str r.headers)) then
    some ProtectionType.AKAMAI
  else if dict_contains_key r.headers "x-px" ||
          str_contains "_pxhd" r.cookies_str then
    some ProtectionType.PERIMETERX
  else if str_contains "datadome" (to_lower (dict_str r.headers)) then
    some ProtectionType.DATADOME
  else
    none

/-- Body checks of `detect_protection` (detector.py lines 63-80), applied to
the lowercased html, in source order. -/
def check_body (html : String) : ProtectionType :=
  if str_contains "challenges.cloudflare.com" html ||
     str_contains "cf-browser-verification" html then
    ProtectionType.CLOUDFLARE
  else if str_contains "recaptcha" html || str_contains "g-recaptcha" html then
    ProtectionType.RECAPTCHA
  else if str_contains "hcaptcha" html || str_contains "h-captcha" html then
    ProtectionType.HCAPTCHA
  else if str_contains "perimeterx" html then
    ProtectionType.PERIMETERX
  else if str_contains "access denied" html || str_contains "bot detected" html ||
          str_contains "please verify" html then
    ProtectionType.UNKNOWN
  else
    ProtectionType.NONE

/-- Embedding of `detect_protection(url)`: `none` models any transport
failure (the whole probe runs in a `try` whose handler returns UNKNOWN);
`some r` models a received response, classified headers first, body second. -/
def detect_protection : Option ProbeResponse → ProtectionType
  | none => ProtectionType.UNKNOWN
  | some r =>
    match check_headers r with
    | some t => t
    | none => check_body (to_lower r.html)

/- ### CAPTCHA solver polling (src/protection/captcha_solver.py) -/

/-- One JSON response of the 2Captcha result endpoint:
`\x7bstatus: int, request: token|"CAPCHA_NOT_READY"|error_text\x7d`. -/
structure PollResponse where
  status : Int
  request : String

/-- The `max_attempts` default of `_poll_result`. -/
def max_attempts : Nat := 60

/-- The `interval` default of `_poll_result`, in seconds. -/
def poll_interval : ℚ := 3

/-- Loop body of `_poll_result` (captcha_solver.py lines 197-219).  `resp i`
is the service's answer to the i-th poll; `i` is the index of the next poll;
`fuel` is the number of loop iterations left.  Each iteration sleeps for the
interval, polls once, and then: status 1 returns the token; a request value
other than the CAPCHA_NOT_READY sentinel returns a hard failure (`none`);
otherwise the loop continues.  The second component counts the iterations
performed (each costing one interval of waiting). -/
def poll_aux (resp : Nat → PollResponse) : Nat → Nat → Option String × Nat
  | i, 0 => (none, i)
  | i, fuel + 1 =>
    let r := resp i
    if r.status = 1 then (some r.request, i + 1)
    else if r.request ≠ "CAPCHA_NOT_READY" then (none, i + 1)
    else poll_aux resp (i + 1) fuel

/-- Embedding of `_poll_result(task_id)` with its default arguments: the
result (token, or `none` for a hard failure / timeout) and the number of
polls performed. -/
def poll_result (resp : Nat → PollResponse) : Option String × Nat :=
  poll_aux resp 0 max_attempts

/-- Total time spent sleeping inside `_poll_result`: one interval before
every poll. -/
def poll_total_wait (resp : Nat → PollResponse) : ℚ :=
  poll_interval * ((poll_result resp).2 : ℚ)

/- ### Rate limiter (src/protection/stealth.py, class RateLimiter) -/

/-- State of a `RateLimiter`: requests-per-minute rate, burst capacity,
current token count and last-refill timestamp (loop-time seconds, modelled as
rationals). -/
structure RateLimiter where
  rpm : ℚ
  burst : ℚ
  tokens : ℚ
  last_refill : ℚ

/-- Embedding of `RateLimiter.__init__(requests_per_minute, burst_limit)` at
clock value `now`. -/
def RateLimiter.init (requests_per_minute burst_limit now : ℚ) : RateLimiter :=
  { rpm := requests_per_minute
    burst := burst_limit
    tokens := burst_limit
    last_refill := now }

/-- Embedding of `RateLimiter.acquire()` (stealth.py lines 134-150) at clock
value `now`: lazily refills (clamped to the burst capacity), sleeps when
fewer than one token is available (after the sleep the count is set to 1),
then decrements by one.  Returns the new state and the sleep duration. -/
def acquire (rl : RateLimiter) (now : ℚ) : RateLimiter × ℚ :=
  let elapsed := now - rl.last_refill
  let refill := elapsed * (rl.rpm / 60)
  let tokens1 := min rl.burst (rl.tokens + refill)
  if tokens1 < 1 then
    let wait_time := (1 - tokens1) / (rl.rpm / 60)
    ({ rl with tokens := (1 : ℚ) - 1, last_refill := now }, wait_time)
  else
    ({ rl with tokens := tokens1 - 1, last_refill := now }, 0)

/- ### Proxy pool (src/proxy/proxy_pool.py) -/

/-- The `Proxy` dataclass (proxy_pool.py lines 15-40).  `last_used` is kept
as an optional timestamp; `get_proxy`'s `last_used` bookkeeping is not
modelled since no claim mentions it. -/
structure Proxy where
  host : String
  port : Nat
  username : Option String
  password : Option String
  protocol : String
  country : Option String
  last_used : Option ℚ
  fail_count : Nat
  success_count : Nat
deriving DecidableEq

/-- The `url` property: `protocol://[user:pass@]host:port`, with the
credential part present only when username and password are both truthy
(non-`None`, non-empty). -/
def Proxy.url (p : Proxy) : String :=
  let auth :=
    match p.username, p.password with
    | some u, some pw => if u = "" ∨ pw = "" then "" else u ++ ":" ++ pw ++ "@"
    | _, _ => ""
  p.protocol ++ "://" ++ auth ++ p.host ++ ":" ++ toString p.port

/-- The `success_rate` property: `success_count / total` with a neutral 0.5
for an unobserved proxy. -/
def Proxy.success_rate (p : Proxy) : ℚ :=
  let total := p.success_count + p.fail_count
  if total > 0 then (p.success_count : ℚ) / (total : ℚ) else 1 / 2

/-- State of a `ProxyPool`: the proxy list and the ban set (a duplicate-free
list of urls). -/
structure ProxyPool where
  proxies : List Proxy
  banned : List String

/-- Embedding of `ProxyPool.mark_failure(proxy)` for the proxy at index `i`:
increment its `fail_count` and add its url to the ban set once the count
reaches 5. -/
def mark_failure (pool : ProxyPool) (i : Nat) : ProxyPool :=
  match pool.proxies.get? i with
  | none => pool
  | some p =>
    let p2 : Proxy := { p with fail_count := p.fail_count + 1 }
    { proxies := pool.proxies.set i p2
      banned := if 5 ≤ p2.fail_count then pool.banned.insert p2.url else pool.banned }

/-- Embedding of `ProxyPool.mark_success(proxy)` for the proxy at index `i`. -/
def mark_success (pool : ProxyPool) (i : Nat) : ProxyPool :=
  match pool.proxies.get? i with
  | none => pool
  | some p =>
    { pool with proxies := pool.proxies.set i { p with success_count := p.success_count + 1 } }

/-- Embedding of `ProxyPool.clear_bans()`. -/
def clear_bans (pool : ProxyPool) : ProxyPool :=
  { pool with banned := [] }

/-- The `available` filter of `get_proxy` (proxy_pool.py lines 84-90): not
banned, protocol match, country match when requested, fewer than 5
failures. -/
def eligible (pool : ProxyPool) (country : Option String) (protocol : String) :
    List Proxy :=
  pool.proxies.filter fun p =>
    !(pool.banned.contains p.url)
    && p.protocol == protocol
    && (match country with
        | none => true
        | some c => p.country == some c)
    && decide (p.fail_count < 5)

/-- The descending-success-rate ordering used by
`available.sort(key=..., reverse=True)`. -/
def rank (a b : Proxy) : Prop := b.success_rate ≤ a.success_rate

instance : DecidableRel rank :=
  fun a b => inferInstanceAs (Decidable (b.success_rate ≤ a.success_rate))

instance : IsTotal Proxy rank :=
  ⟨fun a b => le_total b.success_rate a.success_rate⟩

instance : IsTrans Proxy rank :=
  ⟨fun _ _ _ hab hbc => le_trans hbc hab⟩

/-- Embedding of `ProxyPool.get_proxy(country, protocol)` (proxy_pool.py
lines 67-105).  Python's stable in-place sort is modelled by a stable
insertion sort; `random.choice(available[:3])` is modelled by the explicit
choice index `k`, reduced mod 3.  The `last_used` timestamp update on the
returned proxy is elided. -/
def get_proxy (pool : ProxyPool) (country : Option String) (protocol : String)
    (k : Nat) : Option Proxy :=
  let available := eligible pool country protocol
  if available.isEmpty then none
  else
    let sorted := List.insertionSort rank available
    if 3 < sorted.length then (sorted.take 3).get? (k % 3)
    else sorted.head?

/-- Modelled from the spec: the selection rule of `get()` as the spec words
it — "if ≥3 eligible, selects uniformly at random among the top 3; otherwise
selects the single best" — for comparison against `get_proxy`, which uses a
strict `> 3` threshold. -/
def get_proxy_spec (pool : ProxyPool) (country : Option String)
    (protocol : String) (k : Nat) : Option Proxy :=
  let available := eligible pool country protocol
  if available.isEmpty then none
  else
    let sorted := List.insertionSort rank available
    if 3 ≤ sorted.length then (sorted.take 3).get? (k % 3)
    else sorted.head?

/-- The ban-set invariant of a pool: a listed proxy's url is banned exactly
when that proxy has accumulated at least 5 failures. -/
def BanInv (pool : ProxyPool) : Prop :=
  ∀ i p, pool.proxies.get? i = some p →
    (p.url ∈ pool.banned ↔ 5 ≤ p.fail_count)

/-- Distinctness of proxy urls inside a pool (pool positions are identified
by their url). -/
def UrlInj (pool : ProxyPool) : Prop :=
  ∀ i j p q, pool.proxies.get? i = some p → pool.proxies.get? j = some q →
    p.url = q.url → i = j

/- ### Concrete example inputs used by counterexamples and witnesses -/

/-- Engine environment where httpx returns a challenge page, curl raises, and
the browser/unlocker engines would succeed. -/
def env_blocked_curl_down : EngineEnv :=
  { httpx := Except.ok "Just a moment..."
    curl := Except.error "curl connection failed"
    playwright := Except.ok "<html>content</html>"
    bright_data := Except.ok "<html>content</html>" }

/-- Engine environment where httpx returns a challenge page and curl
succeeds. -/
def env_blocked_curl_ok : EngineEnv :=
  { httpx := Except.ok "Just a moment..."
    curl := Except.ok "<html>fine</html>"
    playwright := Except.ok "<html>w</html>"
    bright_data := Except.ok "<html>w</html>" }

/-- Engine environment where every engine returns ordinary content. -/
def env_plain : EngineEnv :=
  { httpx := Except.ok "<html>article</html>"
    curl := Except.ok "<html>b</html>"
    playwright := Except.ok "<html>c</html>"
    bright_data := Except.ok "<html>d</html>" }

/-- A probe response carrying a Cloudflare header marker together with
CAPTCHA body markers. -/
def probe_cf : ProbeResponse :=
  { headers := [("cf-ray", "8a1b2c3d")]
    cookies_str := ""
    html := "<html>g-recaptcha hcaptcha</html>" }

/-- Poll transcript whose first answer is the not-ready sentinel and whose
second answer is ready. -/
def resp_ready_second : Nat → PollResponse :=
  fun i => if i = 0 then { status := 0, request := "CAPCHA_NOT_READY" }
           else { status := 1, request := "TOKEN123" }

/-- A rate limiter at 30 requests/minute with burst 5, constructed at time
0. -/
def rl_example : RateLimiter := RateLimiter.init 30 5 0

/-- A freshly added proxy with no observations. -/
def proxy_fresh : Proxy :=
  { host := "p1.example.com", port := 8080, username := none, password := none
    protocol := "http", country := none, last_used := none
    fail_count := 0, success_count := 0 }

/-- A pool holding only `proxy_fresh`, with an empty ban set. -/
def pool_single : ProxyPool := { proxies := [proxy_fresh], banned := [] }

/-- `pool_single` after five consecutive `mark_failure` calls on its only
proxy: `fail_count = 5` and the proxy's url is banned. -/
def pool_failed5 : ProxyPool :=
  mark_failure (mark_failure (mark_failure (mark_failure (mark_failure pool_single 0) 0) 0) 0) 0

/-- Eligible proxy with success rate 3/4. -/
def proxy_hi : Proxy :=
  { host := "a.example.com", port := 1, username := none, password := none
    protocol := "http", country := none, last_used := none
    fail_count := 1, success_count := 3 }

/-- Eligible proxy with success rate 1/2. -/
def proxy_mid : Proxy :=
  { host := "b.example.com", port := 2, username := none, password := none
    protocol := "http", country := none, last_used := none
    fail_count := 1, success_count := 1 }

/-- Eligible proxy with success rate 1/4. -/
def proxy_lo : Proxy :=
  { host := "c.example.com", port := 3, username := none, password := none
    protocol := "http", country := none, last_used := none
    fail_count := 3, success_count := 1 }

/-- A pool with exactly three eligible proxies of distinct success rates. -/
def pool_three : ProxyPool :=
  { proxies := [proxy_hi, proxy_mid, proxy_lo], banned := [] }

/-- An unobserved proxy used to evaluate the neutral success-rate prior. -/
def proxy_unobserved : Proxy := proxy_fresh

/- ### Theorems: engine selector -/

/-- In automatic mode the first attempt is always the httpx engine. -/
theorem smart_scrape_auto_first (env : EngineEnv) (retry : Bool) :
    (smart_scrape env none retry).2.head? = some Engine.httpx := by
  rcases hx : env.httpx with e | h
  · cases retry <;> rcases hc : env.curl with ce | c <;>
      simp [smart_scrape, hx, hc]
  · cases hb : is_blocked h <;> cases retry <;> rcases hc : env.curl with ce | c <;>
      simp [smart_scrape, hx, hb, hc]

/-- C1 (counterexample): with httpx blocked and curl raising, `smart_scrape`
attempts the curl tier twice (once from the blocked branch, once from the
exception handler) and never reaches the browser or unlocker tiers even
though they would succeed — refuting both the four-tier ladder and the
each-tier-at-most-once property. -/
theorem smart_scrape_revisits_curl_counterexample :
    smart_scrape env_blocked_curl_down none true =
      (Except.error "curl connection failed",
       [Engine.httpx, Engine.curl, Engine.curl])
    ∧ (smart_scrape env_blocked_curl_down none true).2.count Engine.curl = 2
    ∧ env_blocked_curl_down.playwright = Except.ok "<html>content</html>"
    ∧ Engine.playwright ∉ (smart_scrape env_blocked_curl_down none true).2 := by
  refine ⟨rfl, by decide, rfl, by decide⟩

/-- C1 (amended): with escalation enabled, the ladder consists of the direct
httpx tier followed by the TLS-impersonation curl tier only — the browser and
proxy-unlocker engines are never attempted; httpx is attempted exactly once
while curl may be attempted up to twice; when httpx is clean its content is
returned with no further attempt, and when httpx is blocked or raises, a
successful curl attempt's content is returned. -/
theorem smart_scrape_ladder (env : EngineEnv) :
    ((smart_scrape env none true).2 = [Engine.httpx] ∨
     (smart_scrape env none true).2 = [Engine.httpx, Engine.curl] ∨
     (smart_scrape env none true).2 = [Engine.httpx, Engine.curl, Engine.curl])
    ∧ Engine.playwright ∉ (smart_scrape env none true).2
    ∧ Engine.bright_data ∉ (smart_scrape env none true).2
    ∧ (smart_scrape env none true).2.count Engine.httpx = 1
    ∧ (∀ h, env.httpx = Except.ok h → is_blocked h = false →
        smart_scrape env none true = (Except.ok h, [Engine.httpx]))
    ∧ (∀ h c, env.httpx = Except.ok h → is_blocked h = true →
        env.curl = Except.ok c → (smart_scrape env none true).1 = Except.ok c)
    ∧ (∀ e c, env.httpx = Except.error e → env.curl = Except.ok c →
        (smart_scrape env none true).1 = Except.ok c) := by
  rcases hx : env.httpx with e | h
  · rcases hc : env.curl with ce | c <;> simp [smart_scrape, hx, hc]
  · cases hb : is_blocked h <;> rcases hc : env.curl with ce | c <;>
      simp [smart_scrape, hx, hb, hc]

/-- C1 (witness): in a run where httpx is blocked and curl succeeds, the
fetch returns curl's content. -/
theorem smart_scrape_ladder_witness :
    (smart_scrape env_blocked_curl_ok none true).1 = Except.ok "<html>fine</html>" :=
  (smart_scrape_ladder env_blocked_curl_ok).2.2.2.2.2.1 "Just a moment..."
    "<html>fine</html>" rfl (by decide) rfl

/-- C2 (counterexample): with the engine pinned to httpx, a blocked response
is returned as ordinary content (an `ok` value), not surfaced as a terminal
failure. -/
theorem smart_scrape_forced_blocked_counterexample :
    is_blocked "Just a moment..." = true
    ∧ smart_scrape env_blocked_curl_ok (some "httpx") true =
        (Except.ok "Just a moment...", [Engine.httpx]) :=
  ⟨by decide, rfl⟩

/-- C2 (amended): pinning the engine to "httpx" or "curl" disables escalation
and block-checking entirely — that single tier is the only attempt, and its
raw outcome is returned: a raised error propagates as a terminal failure,
while a blocked response body is returned as ordinary content. -/
theorem smart_scrape_forced_terminal (env : EngineEnv) (retry : Bool) :
    smart_scrape env (some "httpx") retry = (env.httpx, [Engine.httpx])
    ∧ smart_scrape env (some "curl") retry = (env.curl, [Engine.curl]) :=
  ⟨rfl, rfl⟩

/-- C10: any `force_engine` value other than exactly "httpx" or "curl"
(including the documented "playwright") is silently ignored — the call
behaves exactly like the automatic escalation path, which starts at the
httpx engine. -/
theorem smart_scrape_unknown_engine_fallthrough (env : EngineEnv) (s : String)
    (retry : Bool) (h1 : s ≠ "httpx") (h2 : s ≠ "curl") :
    smart_scrape env (some s) retry = smart_scrape env none retry
    ∧ (smart_scrape env (some s) retry).2.head? = some Engine.httpx := by
  have key : smart_scrape env (some s) retry = smart_scrape env none retry := by
    simp only [smart_scrape]
    rw [if_neg (show ¬ (some s = some "httpx") from by simp [h1]),
        if_neg (show ¬ (some s = some "curl") from by simp [h2]),
        if_neg (show ¬ ((none : Option String) = some "httpx") from by simp),
        if_neg (show ¬ ((none : Option String) = some "curl") from by simp)]
  exact ⟨key, by rw [key]; exact smart_scrape_auto_first env retry⟩

/-- C10 (witness): forcing "playwright" on a concrete environment coincides
with the automatic path. -/
theorem smart_scrape_unknown_engine_fallthrough_witness :
    smart_scrape env_plain (some "playwright") true = smart_scrape env_plain none true :=
  (smart_scrape_unknown_engine_fallthrough env_plain "playwright" true
    (by decide) (by decide)).1

/- ### Theorems: protection detector -/

/-- C7: classification applies first-match-wins precedence with header checks
strictly before body checks — a response whose headers carry a Cloudflare
marker (`cf-ray` or `cf-cache-status`) classifies as Cloudflare regardless of
its HTML body; more generally, whenever any header check fires, the result is
independent of the body; and a transport failure during the probe yields
Unknown instead of an error. -/
theorem detect_protection_precedence (r : ProbeResponse) (b : String) :
    ((dict_contains_key r.headers "cf-ray" ||
      dict_contains_key r.headers "cf-cache-status") = true →
        detect_protection (some r) = ProtectionType.CLOUDFLARE ∧
        detect_protection (some { r with html := b }) = ProtectionType.CLOUDFLARE)
    ∧ (∀ t, check_headers r = some t →
        detect_protection (some { r with html := b }) = t)
    ∧ detect_protection none = ProtectionType.UNKNOWN := by
  have hsame : check_headers { r with html := b } = check_headers r := rfl
  refine ⟨?_, ?_, rfl⟩
  · intro hcf
    have h1 : check_headers r = some ProtectionType.CLOUDFLARE := by
      simp [check_headers, hcf]
    constructor
    · simp [detect_protection, h1]
    · simp [detect_protection, hsame, h1]
  · intro t ht
    simp [detect_protection, hsame, ht]

/-- C7 (witness): a concrete response with a `cf-ray` header and CAPTCHA
markers in its body classifies as Cloudflare, for any replacement body. -/
theorem detect_protection_precedence_witness :
    detect_protection (some probe_cf) = ProtectionType.CLOUDFLARE
    ∧ detect_protection none = ProtectionType.UNKNOWN :=
  ⟨((detect_protection_precedence probe_cf "").1 (by decide)).1,
   (detect_protection_precedence probe_cf "").2.2⟩

/- ### Theorems: proxy success rate -/

/-- C8: every proxy's success rate lies in [0, 1], and a proxy with zero
observations has the neutral rate 1/2 exactly. -/
theorem success_rate_bounds (p : Proxy) :
    0 ≤ p.success_rate ∧ p.success_rate ≤ 1
    ∧ (p.success_count + p.fail_count = 0 → p.success_rate = 1 / 2) := by
  unfold Proxy.success_rate
  by_cases htot : p.success_count + p.fail_count > 0
  · rw [if_pos htot]
    have hc : (0 : ℚ) < ((p.success_count + p.fail_count : ℕ) : ℚ) := by
      exact_mod_cast htot
    refine ⟨div_nonneg (by positivity) hc.le, ?_, ?_⟩
    · rw [div_le_one hc]
      exact_mod_cast Nat.le_add_right p.success_count p.fail_count
    · intro h0
      omega
  · rw [if_neg htot]
    norm_num

/-- C8 (witness): the unobserved proxy has rate exactly 1/2, which is
nonnegative. -/
theorem success_rate_bounds_witness :
    Proxy.success_rate proxy_unobserved = 1 / 2
    ∧ 0 ≤ Proxy.success_rate proxy_unobserved :=
  ⟨(success_rate_bounds proxy_unobserved).2.2 rfl,
   (success_rate_bounds proxy_unobserved).1⟩

/- ### Theorems: rate limiter -/

/-- C9: with a nonnegative burst capacity the token count lies in
[0, burst_limit] right after construction and after every `acquire` step —
the lazy refill is clamped to the capacity and the decrement never drives the
count below zero; `acquire` leaves the capacity itself unchanged. -/
theorem rate_limiter_token_bounds (rpm burst t0 now : ℚ) (rl : RateLimiter)
    (hb : 0 ≤ burst) (hrl : 0 ≤ rl.burst) :
    (0 ≤ (RateLimiter.init rpm burst t0).tokens ∧
      (RateLimiter.init rpm burst t0).tokens ≤ (RateLimiter.init rpm burst t0).burst)
    ∧ (0 ≤ (acquire rl now).1.tokens ∧
      (acquire rl now).1.tokens ≤ (acquire rl now).1.burst)
    ∧ (acquire rl now).1.burst = rl.burst := by
  refine ⟨⟨hb, le_refl _⟩, ?_, ?_⟩
  · unfold acquire
    set tokens1 := min rl.burst (rl.tokens + (now - rl.last_refill) * (rl.rpm / 60)) with htok
    by_cases hlt : tokens1 < 1
    · rw [if_pos hlt]
      constructor
      · norm_num
      · simpa using hrl
    · rw [if_neg hlt]
      push_neg at hlt
      constructor
      · simp only
        linarith
      · have hmin : tokens1 ≤ rl.burst := min_le_left _ _
        simp only
        linarith
  · unfold acquire
    by_cases hlt : min rl.burst (rl.tokens + (now - rl.last_refill) * (rl.rpm / 60)) < 1
    · rw [if_pos hlt]
    · rw [if_neg hlt]

/-- C9 (witness): after one `acquire` on the concrete limiter, the token
count is within [0, burst]. -/
theorem rate_limiter_token_bounds_witness :
    0 ≤ (acquire rl_example 7).1.tokens
    ∧ (acquire rl_example 7).1.tokens ≤ (acquire rl_example 7).1.burst :=
  (rate_limiter_token_bounds 30 5 0 7 rl_example (by norm_num)
    (by norm_num [rl_example, RateLimiter.init])).2.1

/- ### Theorems: CAPTCHA polling -/

/-- The poll counter starts at the initial index and advances by at most one
per unit of fuel. -/
theorem poll_aux_count (resp : Nat → PollResponse) :
    ∀ fuel i, i ≤ (poll_aux resp i fuel).2 ∧ (poll_aux resp i fuel).2 ≤ i + fuel := by
  intro fuel
  induction fuel with
  | zero => intro i; simp [poll_aux]
  | succ n ih =>
    intro i
    simp only [poll_aux]
    split
    · simp
    · split
      · simp
      · have := ih (i + 1)
        omega

/-- A returned token comes from the final poll, whose status was 1. -/
theorem poll_aux_some (resp : Nat → PollResponse) :
    ∀ fuel i tok, (poll_aux resp i fuel).1 = some tok →
      i < (poll_aux resp i fuel).2 ∧
      (resp ((poll_aux resp i fuel).2 - 1)).status = 1 ∧
      tok = (resp ((poll_aux resp i fuel).2 - 1)).request := by
  intro fuel
  induction fuel with
  | zero => intro i tok h; simp [poll_aux] at h
  | succ n ih =>
    intro i tok h
    simp only [poll_aux] at h ⊢
    by_cases h1 : (resp i).status = 1
    · rw [if_pos h1] at h ⊢
      simp at h
      simp [h1, h]
    · rw [if_neg h1] at h ⊢
      by_cases h2 : (resp i).request = "CAPCHA_NOT_READY"
      · rw [if_neg (fun hc => hc h2)] at h ⊢
        have hm := ih (i + 1) tok h
        exact ⟨by omega, hm.2.1, hm.2.2⟩
      · rw [if_pos h2] at h
        simp at h

/-- Every poll strictly before the final one answered with the not-ready
sentinel (and status other than 1): the loop continues only on the
sentinel. -/
theorem poll_aux_pre_sentinel (resp : Nat → PollResponse) :
    ∀ fuel i j, i ≤ j → j + 1 < (poll_aux resp i fuel).2 →
      (resp j).status ≠ 1 ∧ (resp j).request = "CAPCHA_NOT_READY" := by
  intro fuel
  induction fuel with
  | zero =>
    intro i j hij hj
    simp [poll_aux] at hj
    omega
  | succ n ih =>
    intro i j hij hj
    simp only [poll_aux] at hj
    split at hj
    · simp at hj; omega
    · split at hj
      · simp at hj; omega
      · next h1 h2 =>
        rcases Nat.eq_or_lt_of_le hij with heq | hlt
        · subst heq
          refine ⟨h1, ?_⟩
          by_contra hne
          exact h2 hne
        · exact ih (i + 1) j hlt hj

/-- A failure before the fuel runs out is a hard abort: the final poll had a
status other than 1 and a non-sentinel request value. -/
theorem poll_aux_none_early (resp : Nat → PollResponse) :
    ∀ fuel i, (poll_aux resp i fuel).1 = none →
      (poll_aux resp i fuel).2 < i + fuel →
      (resp ((poll_aux resp i fuel).2 - 1)).status ≠ 1 ∧
      (resp ((poll_aux resp i fuel).2 - 1)).request ≠ "CAPCHA_NOT_READY" := by
  intro fuel
  induction fuel with
  | zero =>
    intro i hnone hlt
    simp [poll_aux] at hlt
  | succ n ih =>
    intro i hnone hlt
    simp only [poll_aux] at hnone hlt ⊢
    by_cases h1 : (resp i).status = 1
    · rw [if_pos h1] at hnone
      simp at hnone
    · rw [if_neg h1] at hnone hlt ⊢
      by_cases h2 : (resp i).request = "CAPCHA_NOT_READY"
      · rw [if_neg (fun hc => hc h2)] at hnone hlt ⊢
        exact ih (i + 1) hnone (by omega)
      · rw [if_pos h2] at hnone hlt ⊢
        simpa using ⟨h1, h2⟩

/-- When every answer within the fuel budget is the not-ready sentinel, the
loop exhausts its fuel and reports a timeout failure. -/
theorem poll_aux_timeout (resp : Nat → PollResponse) :
    ∀ fuel i,
      (∀ j, i ≤ j → j < i + fuel →
        (resp j).status ≠ 1 ∧ (resp j).request = "CAPCHA_NOT_READY") →
      poll_aux resp i fuel = (none, i + fuel) := by
  intro fuel
  induction fuel with
  | zero => intro i _; simp [poll_aux]
  | succ n ih =>
    intro i hall
    have hi := hall i (le_refl i) (by omega)
    simp only [poll_aux]
    rw [if_neg hi.1, if_neg (by simpa using hi.2)]
    rw [ih (i + 1) (fun j h1 h2 => hall j (by omega) (by omega))]
    congr 1
    omega

/-- C6: `_poll_result` performs at most `max_attempts` polls with one fixed
interval of waiting before each, so the total wait never exceeds
`max_attempts * interval`; a token is returned exactly when the final poll
has status 1 (immediately, with every earlier poll answering the not-ready
sentinel); a failure before exhausting the budget is an immediate hard abort
on the first non-sentinel answer; and an all-sentinel transcript exhausts the
budget as a timeout failure. -/
theorem poll_result_spec (resp : Nat → PollResponse) :
    (poll_result resp).2 ≤ max_attempts
    ∧ poll_total_wait resp ≤ (max_attempts : ℚ) * poll_interval
    ∧ (∀ tok, (poll_result resp).1 = some tok →
        0 < (poll_result resp).2 ∧
        (resp ((poll_result resp).2 - 1)).status = 1 ∧
        tok = (resp ((poll_result resp).2 - 1)).request)
    ∧ (∀ j, j + 1 < (poll_result resp).2 →
        (resp j).status ≠ 1 ∧ (resp j).request = "CAPCHA_NOT_READY")
    ∧ ((poll_result resp).1 = none → (poll_result resp).2 < max_attempts →
        (resp ((poll_result resp).2 - 1)).status ≠ 1 ∧
        (resp ((poll_result resp).2 - 1)).request ≠ "CAPCHA_NOT_READY")
    ∧ ((∀ j, j < max_attempts →
          (resp j).status ≠ 1 ∧ (resp j).request = "CAPCHA_NOT_READY") →
        poll_result resp = (none, max_attempts)) := by
  have hcount := poll_aux_count resp max_attempts 0
  refine ⟨by simpa using hcount.2, ?_, ?_, ?_, ?_, ?_⟩
  · unfold poll_total_wait poll_interval
    have h2 : ((poll_result resp).2 : ℚ) ≤ (max_attempts : ℚ) := by
      exact_mod_cast (by simpa using hcount.2 : (poll_result resp).2 ≤ max_attempts)
    nlinarith
  · intro tok h
    have := poll_aux_some resp max_attempts 0 tok h
    exact ⟨this.1, this.2.1, this.2.2⟩
  · intro j hj
    exact poll_aux_pre_sentinel resp max_attempts 0 j (Nat.zero_le j) hj
  · intro hnone hlt
    exact poll_aux_none_early resp max_attempts 0 hnone (by simpa using hlt)
  · intro hall
    have := poll_aux_timeout resp max_attempts 0
      (fun j h1 h2 => hall j (by omega))
    simpa using this

/-- C6 (witness): on a transcript that is not ready once and ready on the
second poll, the loop returns after 2 polls, within the attempt budget, and
the final poll indeed had status 1. -/
theorem poll_result_spec_witness :
    (poll_result resp_ready_second).2 ≤ max_attempts
    ∧ (resp_ready_second ((poll_result resp_ready_second).2 - 1)).status = 1 :=
  ⟨(poll_result_spec resp_ready_second).1,
   ((poll_result_spec resp_ready_second).2.2.1 "TOKEN123" rfl).2.1⟩

/- ### Theorems: proxy pool -/

/-- Unpacking of `get_proxy`'s eligibility filter. -/
theorem eligible_props (pool : ProxyPool) (c : Option String) (proto : String)
    (p : Proxy) (h : p ∈ eligible pool c proto) :
    p ∈ pool.proxies ∧ p.url ∉ pool.banned ∧ p.protocol = proto ∧
      p.fail_count < 5 := by
  unfold eligible at h
  rw [List.mem_filter] at h
  obtain ⟨hmem, hcond⟩ := h
  simp only [Bool.and_eq_true, Bool.not_eq_true', decide_eq_true_eq,
    beq_iff_eq] at hcond
  refine ⟨hmem, ?_, hcond.1.1.2, hcond.2⟩
  intro hin
  have : pool.banned.contains p.url = true := by
    simpa [List.contains] using List.elem_iff.mpr hin
  rw [hcond.1.1.1] at this
  cases this

/-- A proxy returned by `get_proxy` passed the eligibility filter. -/
theorem get_proxy_some_mem (pool : ProxyPool) (c : Option String)
    (proto : String) (k : Nat) (p : Proxy)
    (h : get_proxy pool c proto k = some p) : p ∈ eligible pool c proto := by
  unfold get_proxy at h
  by_cases he : (eligible pool c proto).isEmpty
  · rw [if_pos he] at h
    cases h
  · rw [if_neg he] at h
    by_cases hl : 3 < (List.insertionSort rank (eligible pool c proto)).length
    · rw [if_pos hl] at h
      have hp := List.get?_mem h
      have hp2 := List.take_subset 3 _ hp
      exact (List.mem_insertionSort rank).1 hp2
    · rw [if_neg hl] at h
      have hp := List.mem_of_mem_head? (Option.mem_def.mpr h)
      exact (List.mem_insertionSort rank).1 hp

/-- C3: on a pool with distinct proxy urls whose ban set matches the
5-failure rule, `mark_failure` and `mark_success` preserve the rule — a
proxy's url is banned exactly when its `fail_count` has reached 5, the ban
being installed by the `mark_failure` that performs the fifth increment — and
`get_proxy` never returns a banned proxy (nor one with 5 failures),
regardless of success rates. -/
theorem proxy_ban_iff_five_failures (pool : ProxyPool) (i k : Nat)
    (country : Option String) (protocol : String)
    (hinj : UrlInj pool) (hinv : BanInv pool) :
    BanInv (mark_failure pool i)
    ∧ BanInv (mark_success pool i)
    ∧ (∀ p, get_proxy pool country protocol k = some p →
        p.url ∉ pool.banned ∧ p.fail_count < 5) := by
  refine ⟨?_, ?_, ?_⟩
  · unfold mark_failure
    cases hgi : pool.proxies.get? i with
    | none => exact hinv
    | some p =>
      intro j q hq
      simp only at hq ⊢
      by_cases hji : i = j
      · subst hji
        rw [List.get?_set_eq, hgi] at hq
        simp at hq
        subst hq
        have hurl : ({ p with fail_count := p.fail_count + 1 } : Proxy).url = p.url := rfl
        by_cases h5 : 5 ≤ p.fail_count + 1
        · rw [if_pos h5]
          simp [List.mem_insert_iff, h5]
        · rw [if_neg h5]
          have hold := hinv i p hgi
          rw [hurl]
          simp only [hold]
          omega
      · rw [List.get?_set_ne _ _ hji] at hq
        have hold := hinv j q hq
        by_cases h5 : 5 ≤ p.fail_count + 1
        · rw [if_pos h5]
          rw [List.mem_insert_iff]
          constructor
          · rintro (heq | hin)
            · exact absurd (hinj j i q p hq hgi heq) (fun hh => hji hh.symm)
            · exact hold.1 hin
          · intro h5q
            exact Or.inr (hold.2 h5q)
        · rw [if_neg h5]
          exact hold
  · unfold mark_success
    cases hgi : pool.proxies.get? i with
    | none => exact hinv
    | some p =>
      intro j q hq
      simp only at hq ⊢
      by_cases hji : i = j
      · subst hji
        rw [List.get?_set_eq, hgi] at hq
        simp at hq
        subst hq
        have hurl : ({ p with success_count := p.success_count + 1 } : Proxy).url = p.url := rfl
        rw [hurl]
        exact hinv i p hgi
      · rw [List.get?_set_ne _ _ hji] at hq
        exact hinv j q hq
  · intro p h
    have hel := get_proxy_some_mem pool country protocol k p h
    have := eligible_props pool country protocol p hel
    exact ⟨this.2.1, this.2.2.2⟩

/-- C3 (witness): the invariant concretely holds after one `mark_failure` on
a fresh single-proxy pool. -/
theorem proxy_ban_iff_five_failures_witness :
    BanInv (mark_failure pool_single 0) :=
  (proxy_ban_iff_five_failures pool_single 0 0 none "http"
    (by
      intro i j p q hp hq _
      cases i with
      | zero =>
        cases j with
        | zero => rfl
        | succ m => simp [pool_single] at hq
      | succ m => simp [pool_single] at hp)
    (by
      intro i p hp
      cases i with
      | zero =>
        simp [pool_single] at hp
        subst hp
        simp [pool_single, proxy_fresh]
      | succ m => simp [pool_single] at hp)).1

/-- C4 (counterexample): after five failures the proxy's url is banned and
`fail_count = 5`; `clear_bans()` empties the ban set, yet `get_proxy` still
returns nothing for that pool — the proxy does not become eligible again,
because the independent `fail_count < 5` filter keeps excluding it. -/
theorem clear_bans_counterexample :
    (clear_bans pool_failed5).banned = []
    ∧ ((clear_bans pool_failed5).proxies.get? 0).map Proxy.fail_count = some 5
    ∧ get_proxy (clear_bans pool_failed5) none "http" 0 = none := by
  exact ⟨rfl, rfl, rfl⟩

/-- C4 (amended): `clear_bans()` empties the session ban set, so no proxy is
excluded by the ban-set test afterwards; but a proxy that has accumulated 5
failures remains ineligible to `get_proxy` even after `clear_bans()`, because
of the separate `fail_count < 5` filter — within a session such a ban is
effectively irreversible. -/
theorem clear_bans_spec (pool : ProxyPool) (c : Option String) (proto : String)
    (k : Nat) :
    (clear_bans pool).banned = []
    ∧ (∀ p, p ∈ (clear_bans pool).proxies → p.url ∉ (clear_bans pool).banned)
    ∧ (∀ p, get_proxy (clear_bans pool) c proto k = some p → p.fail_count < 5) := by
  refine ⟨rfl, ?_, ?_⟩
  · intro p _
    simp [clear_bans]
  · intro p h
    exact (eligible_props _ _ _ p (get_proxy_some_mem _ _ _ _ p h)).2.2.2

/-- C4 (witness): on a healthy pool, a proxy returned after `clear_bans` has
fewer than 5 failures. -/
theorem clear_bans_spec_witness :
    get_proxy (clear_bans pool_single) none "http" 0 = some proxy_fresh
    ∧ proxy_fresh.fail_count < 5 :=
  ⟨rfl, (clear_bans_spec pool_single none "http" 0).2.2 proxy_fresh rfl⟩

/-- C5 (counterexample): with exactly 3 eligible proxies of distinct success
rates, `get_proxy` deterministically returns the single best for every random
choice (the strict `> 3` threshold excludes the 3-proxy case from the
top-3 random selection), whereas the spec's "≥ 3" rule would return the
second-best proxy for choice index 1. -/
theorem get_proxy_top3_counterexample :
    (eligible pool_three none "http").length = 3
    ∧ get_proxy pool_three none "http" 1 = some proxy_hi
    ∧ get_proxy_spec pool_three none "http" 1 = some proxy_mid
    ∧ proxy_hi ≠ proxy_mid := by
  have hel : eligible pool_three none "http" = [proxy_hi, proxy_mid, proxy_lo] := rfl
  have h1 : rank proxy_mid proxy_lo := by
    norm_num [rank, Proxy.success_rate, proxy_mid, proxy_lo]
  have h2 : rank proxy_hi proxy_mid := by
    norm_num [rank, Proxy.success_rate, proxy_hi, proxy_mid]
  have hsort : List.insertionSort rank [proxy_hi, proxy_mid, proxy_lo]
      = [proxy_hi, proxy_mid, proxy_lo] := by
    simp [List.insertionSort, List.orderedInsert, h1, h2]
  refine ⟨rfl, ?_, ?_, by decide⟩
  · simp only [get_proxy]
    rw [hel, hsort]
    rfl
  · simp only [get_proxy_spec]
    rw [hel, hsort]
    rfl

/-- C5 (amended): `get_proxy` returns null exactly when no proxy passes the
eligibility filter; any returned proxy is eligible; with at most 3 eligible
proxies it deterministically returns one of maximal success rate; and with
strictly more than 3 eligible proxies each of the top 3 positions of the
descending ranking is a possible outcome of the random choice. -/
theorem get_proxy_selection (pool : ProxyPool) (c : Option String)
    (proto : String) (k : Nat) :
    (get_proxy pool c proto k = none ↔ eligible pool c proto = [])
    ∧ (∀ p, get_proxy pool c proto k = some p → p ∈ eligible pool c proto)
    ∧ ((eligible pool c proto).length ≤ 3 →
        ∀ p, get_proxy pool c proto k = some p →
          ∀ q ∈ eligible pool c proto, q.success_rate ≤ p.success_rate)
    ∧ (3 < (eligible pool c proto).length → ∀ j, j < 3 →
        get_proxy pool c proto j =
          (List.insertionSort rank (eligible pool c proto)).get? j) := by
  refine ⟨?_, fun p => get_proxy_some_mem pool c proto k p, ?_, ?_⟩
  · simp only [get_proxy]
    by_cases he : (eligible pool c proto).isEmpty
    · rw [if_pos he]
      simpa [List.isEmpty_iff] using he
    · rw [if_neg he]
      have hne : eligible pool c proto ≠ [] := by
        simpa [List.isEmpty_iff] using he
      constructor
      · intro hnone
        by_cases hl : 3 < (List.insertionSort rank (eligible pool c proto)).length
        · rw [if_pos hl] at hnone
          have hlen : ((List.insertionSort rank (eligible pool c proto)).take 3).length = 3 := by
            rw [List.length_take]
            omega
          have hk3 : k % 3 < 3 := Nat.mod_lt _ (by norm_num)
          rw [List.get?_eq_get (by rw [hlen]; exact hk3)] at hnone
          cases hnone
        · rw [if_neg hl] at hnone
          have hsne : List.insertionSort rank (eligible pool c proto) ≠ [] := by
            intro hh
            apply hne
            have hlen := List.length_insertionSort rank (eligible pool c proto)
            rw [hh] at hlen
            exact List.length_eq_zero.mp hlen.symm
          rw [List.head?_eq_head hsne] at hnone
          cases hnone
      · intro hval
        exact (hne hval).elim
  · intro hle p hp q hq
    simp only [get_proxy] at hp
    by_cases he : (eligible pool c proto).isEmpty
    · rw [if_pos he] at hp
      cases hp
    · rw [if_neg he] at hp
      have hsl : (List.insertionSort rank (eligible pool c proto)).length
          = (eligible pool c proto).length :=
        List.length_insertionSort rank (eligible pool c proto)
      rw [if_neg (by omega)] at hp
      have hsorted := List.sorted_insertionSort rank (eligible pool c proto)
      have hq2 : q ∈ List.insertionSort rank (eligible pool c proto) :=
        (List.mem_insertionSort rank).2 hq
      cases hthe : List.insertionSort rank (eligible pool c proto) with
      | nil =>
        rw [hthe] at hp
        cases hp
      | cons a t =>
        rw [hthe] at hp
        simp at hp
        subst hp
        rw [hthe] at hq2 hsorted
        rcases List.mem_cons.mp hq2 with rfl | hq2
        · exact le_refl _
        · exact List.rel_of_sorted_cons hsorted q hq2
  · intro hgt j hj
    simp only [get_proxy]
    have hne : ¬ ((eligible pool c proto).isEmpty = true) := by
      rw [List.isEmpty_iff]
      intro hh
      rw [hh] at hgt
      simp at hgt
    rw [if_neg hne,
        if_pos (by rw [List.length_insertionSort]; exact hgt),
        Nat.mod_eq_of_lt hj]
    exact List.get?_take hj

/-- C5 (witness): on a single-proxy pool the returned proxy is eligible and
rate-maximal among the eligible proxies. -/
theorem get_proxy_selection_witness :
    proxy_fresh ∈ eligible pool_single none "http"
    ∧ Proxy.success_rate proxy_fresh ≤ Proxy.success_rate proxy_fresh :=
  ⟨(get_proxy_selection pool_single none "http" 0).2.1 proxy_fresh rfl,
   (get_proxy_selection pool_single none "http" 0).2.2.1 (by decide)
     proxy_fresh rfl proxy_fresh (by decide)⟩
